import Mathlib

/-!
Verification of the warbler micro-blogging application.

The data model (user rows, message rows, follow edges, like edges) and the
route handlers of `app.py` are embedded shallowly: the relational store is a
record of lists, a handler is a function from the store, the resolved
current user and the request data to a result (response, flashed messages,
new store).  Operations living in `models.py`, which is not among the
sources, are modelled from the spec and marked as such in their doc
comments.
-/

/-- A stored user row: unique username and email, a salted/hashed password,
and profile fields. -/
structure User where
  id : Nat
  username : String
  email : String
  password : String
  imageUrl : String
  headerImageUrl : String
  bio : String
  location : String
  deriving DecidableEq

/-- A stored message row: text, creation timestamp, owning user id. -/
structure Message where
  id : Nat
  text : String
  timestamp : Nat
  user_id : Nat
  deriving DecidableEq

/-- The relational store: user rows, message rows, follow edges as pairs
(follower id, followed id) and like edges as pairs (user id, message id). -/
structure DBState where
  users : List User
  messages : List Message
  follows : List (Nat × Nat)
  likes : List (Nat × Nat)
  deriving DecidableEq

/-- Modelled from the spec: `models.py` is not among the sources; per the
spec the password is salted/hashed (bcrypt) before storage and never stored
in plaintext.  The hash is idealized as an injective tagging function. -/
def hashPassword (p : String) : String :=
  "$2b$12$" ++ p

/-- Modelled from the spec: bcrypt hash verification, idealized as equality
of the recomputed hash with the stored one. -/
def checkPassword (p stored : String) : Bool :=
  hashPassword p == stored

/-- User.query.get: look a user row up by primary key. -/
def getUser (s : DBState) (uid : Nat) : Option User :=
  s.users.find? (fun v => v.id == uid)

/-- Message.query.get: look a message row up by primary key. -/
def getMessage (s : DBState) (mid : Nat) : Option Message :=
  s.messages.find? (fun m => m.id == mid)

/-- add_user_to_g (app.py): resolve the current user from the session
token, `none` when no valid token is present. -/
def add_user_to_g (s : DBState) (sess : Option Nat) : Option User :=
  match sess with
  | some uid => getUser s uid
  | none => none

/-- Modelled from the spec: `User.authenticate` (`models.py` is not among
the sources) looks the user up by username, verifies the password hash,
and returns the user on a match and a falsy result otherwise. -/
def authenticate (s : DBState) (username password : String) : Option User :=
  match s.users.find? (fun v => v.username == username) with
  | some u => if checkPassword password u.password then some u else none
  | none => none

/-- Store-level failures surfaced to the handlers. -/
inductive DBErr
  | integrityViolation
  | valueViolation
  deriving DecidableEq

/-- Fresh serial primary key: one more than the largest id in use. -/
def nextId (ids : List Nat) : Nat :=
  ids.foldr max 0 + 1

def DEFAULT_IMAGE_URL : String := "/static/images/default-pic.png"

def DEFAULT_HEADER_IMAGE_URL : String := "/static/images/warbler-hero.jpg"

def DEFAULT_LOCATION : String := ""

/-- Modelled from the spec: `User.signup` (`models.py` is not among the
sources) fails with a validation error when the password is empty, hashes
the password before storage, and an insert whose username or email
duplicates an existing row violates the store's uniqueness constraints
(an integrity violation), leaving the stored rows unchanged. -/
def User_signup (s : DBState) (username email password : String)
    (image_url : Option String) : Except DBErr (DBState × User) :=
  if password = "" then .error .valueViolation
  else if s.users.any (fun v => v.username == username || v.email == email) then
    .error .integrityViolation
  else
    let u : User :=
      { id := nextId (s.users.map (fun v => v.id)),
        username := username, email := email,
        password := hashPassword password,
        imageUrl := image_url.getD DEFAULT_IMAGE_URL,
        headerImageUrl := DEFAULT_HEADER_IMAGE_URL,
        bio := "", location := DEFAULT_LOCATION }
    .ok ({ s with users := s.users ++ [u] }, u)

/-- An HTTP-level outcome of one handler: a redirect, a rendered template,
a 404, or an uncaught exception propagating out of the handler. -/
inductive Resp
  | redirect (location : String)
  | render (template : String)
  | notFound
  | raise (msg : String)
  deriving DecidableEq

/-- Outcome of one request: response, flashed messages as (message,
category) pairs, and the store after the request. -/
structure HandlerResult where
  resp : Resp
  flashes : List (String × String)
  state : DBState
  deriving DecidableEq

/-- The common guard outcome: flash "Access unauthorized." and redirect to
the landing page, leaving the store unchanged. -/
def unauthorized (s : DBState) : HandlerResult :=
  { resp := .redirect "/", flashes := [("Access unauthorized.", "danger")], state := s }

/-- signup route (app.py): already-logged-in users are redirected home; on
a valid form the user is created, a uniqueness violation being caught and
converted into a flash plus a re-rendered form; an empty-password error is
not caught there.  (Session side effects of `do_login` are not modelled
here; they do not touch the store.) -/
def signup_route (s : DBState) (gUser : Option User) (formValid : Bool)
    (username email password : String) (image_url : Option String) : HandlerResult :=
  match gUser with
  | some _ => { resp := .redirect "/", flashes := [], state := s }
  | none =>
    if formValid then
      match User_signup s username email password image_url with
      | .error .integrityViolation =>
        { resp := .render "users/signup.html",
          flashes := [("Username already taken", "danger")], state := s }
      | .error .valueViolation =>
        { resp := .raise "ValueError", flashes := [], state := s }
      | .ok (s2, _) => { resp := .redirect "/", flashes := [], state := s2 }
    else { resp := .render "users/signup.html", flashes := [], state := s }

/-- do_logout (app.py): delete the session key when it is present; a no-op
otherwise. -/
def do_logout : Option Nat → Option Nat
  | some _ => none
  | none => none

/-- Outcome of the logout route: response, flashes, session afterwards. -/
structure AuthResult where
  resp : Resp
  flashes : List (String × String)
  sess : Option Nat
  deriving DecidableEq

/-- logout route (app.py): with a valid CSRF token, clear the session,
flash success and redirect to /login; otherwise flash unauthorized and
redirect home.  The handler never consults the current user. -/
def logout (sess : Option Nat) (csrfValid : Bool) : AuthResult :=
  if csrfValid then
    { resp := .redirect "/login",
      flashes := [("Logged out, Going so soon :(", "success")],
      sess := do_logout sess }
  else
    { resp := .redirect "/", flashes := [("Access unauthorized.", "danger")], sess := sess }

/-- list_users route (app.py): guard, then render the user index (the
rendered payload, all users or a username search, is not modelled). -/
def list_users (s : DBState) (gUser : Option User) (q : Option String) : HandlerResult :=
  match gUser with
  | none => unauthorized s
  | some _ => { resp := .render "users/index.html", flashes := [], state := s }

/-- show_user route (app.py): guard, 404 on an unknown id, render. -/
def show_user (s : DBState) (gUser : Option User) (user_id : Nat) : HandlerResult :=
  match gUser with
  | none => unauthorized s
  | some _ =>
    match getUser s user_id with
    | none => { resp := .notFound, flashes := [], state := s }
    | some _ => { resp := .render "users/show.html", flashes := [], state := s }

/-- show_following route (app.py): guard, 404 on an unknown id, render. -/
def show_following (s : DBState) (gUser : Option User) (user_id : Nat) : HandlerResult :=
  match gUser with
  | none => unauthorized s
  | some _ =>
    match getUser s user_id with
    | none => { resp := .notFound, flashes := [], state := s }
    | some _ => { resp := .render "users/following.html", flashes := [], state := s }

/-- show_followers route (app.py): guard, 404 on an unknown id, render. -/
def show_followers (s : DBState) (gUser : Option User) (user_id : Nat) : HandlerResult :=
  match gUser with
  | none => unauthorized s
  | some _ =>
    match getUser s user_id with
    | none => { resp := .notFound, flashes := [], state := s }
    | some _ => { resp := .render "users/followers.html", flashes := [], state := s }

/-- start_following route (app.py): guard, CSRF, 404 on a missing target,
then append the follow edge and commit. -/
def start_following (s : DBState) (gUser : Option User) (csrfValid : Bool)
    (follow_id : Nat) : HandlerResult :=
  match gUser with
  | none => unauthorized s
  | some u =>
    if csrfValid then
      match getUser s follow_id with
      | none => { resp := .notFound, flashes := [], state := s }
      | some _ =>
        { resp := .redirect ("/users/" ++ toString u.id ++ "/following"),
          flashes := [],
          state := { s with follows := s.follows ++ [(u.id, follow_id)] } }
    else unauthorized s

/-- stop_following route (app.py): guard, CSRF, 404 on a missing target,
then `following.remove`, which removes the edge when present and raises
ValueError when the edge is absent (nothing is committed then). -/
def stop_following (s : DBState) (gUser : Option User) (csrfValid : Bool)
    (follow_id : Nat) : HandlerResult :=
  match gUser with
  | none => unauthorized s
  | some u =>
    if csrfValid then
      match getUser s follow_id with
      | none => { resp := .notFound, flashes := [], state := s }
      | some _ =>
        if (u.id, follow_id) ∈ s.follows then
          { resp := .redirect ("/users/" ++ toString u.id ++ "/following"),
            flashes := [],
            state := { s with follows := s.follows.erase (u.id, follow_id) } }
        else
          { resp := .raise "ValueError", flashes := [], state := s }
    else unauthorized s

/-- Profile edit form data; csrf token and password are excluded from the
fields the handler applies to the row. -/
structure EditForm where
  username : String
  email : String
  imageUrl : String
  headerImageUrl : String
  bio : String
  location : String
  password : String
  deriving DecidableEq

/-- Modelled from the spec: `User.edit_user` (`models.py` is not among the
sources) assigns the submitted profile fields to the row. -/
def edit_user (u : User) (f : EditForm) : User :=
  { u with
    username := f.username, email := f.email, imageUrl := f.imageUrl,
    headerImageUrl := f.headerImageUrl, bio := f.bio, location := f.location }

/-- Replace the row with id `uid` by `v` in a user list. -/
def updateUser (users : List User) (uid : Nat) (v : User) : List User :=
  users.map (fun w => if w.id == uid then v else w)

/-- profile route (app.py): guard; on a valid form, re-authenticate with
the submitted password; on success apply the edit and commit, a uniqueness
violation (modelled from the spec: the store's unique constraints live in
`models.py`) being caught and flashed; with a wrong password the edit is
skipped silently.  Both the success and the wrong-password path end in a
redirect to the user's page. -/
def profile (s : DBState) (gUser : Option User) (formValid : Bool)
    (f : EditForm) : HandlerResult :=
  match gUser with
  | none => unauthorized s
  | some u =>
    if formValid then
      match authenticate s u.username f.password with
      | some _ =>
        if s.users.any (fun v =>
            (v.id != u.id) && (v.username == f.username || v.email == f.email)) then
          { resp := .render "users/edit.html",
            flashes := [("Username already taken", "danger")], state := s }
        else
          { resp := .redirect ("/users/" ++ toString u.id),
            flashes := [],
            state := { s with users := updateUser s.users u.id (edit_user u f) } }
      | none =>
        { resp := .redirect ("/users/" ++ toString u.id), flashes := [], state := s }
    else { resp := .render "users/edit.html", flashes := [], state := s }

/-- delete_user route (app.py): guard, CSRF, log out, delete the user row;
the delete cascades (modelled from the spec: the cascade is declared in
`models.py`) to the user's messages and to the follow and like edges that
reference the user or those messages. -/
def delete_user (s : DBState) (gUser : Option User) (csrfValid : Bool) : HandlerResult :=
  match gUser with
  | none => unauthorized s
  | some u =>
    if csrfValid then
      { resp := .redirect "/signup",
        flashes := [],
        state :=
          { users := s.users.filter (fun v => v.id != u.id),
            messages := s.messages.filter (fun m => m.user_id != u.id),
            follows := s.follows.filter (fun e => (e.1 != u.id) && (e.2 != u.id)),
            likes := s.likes.filter (fun e =>
              (e.1 != u.id) &&
              (s.messages.filter (fun m => m.user_id == u.id)).all (fun m => m.id != e.2)) } }
    else unauthorized s

/-- add_message route (app.py): guard; on a valid form create a message
owned by the current user, with a fresh id and the current time as its
timestamp, and redirect to the user's page. -/
def add_message (s : DBState) (gUser : Option User) (formValid : Bool)
    (text : String) (now : Nat) : HandlerResult :=
  match gUser with
  | none => unauthorized s
  | some u =>
    if formValid then
      { resp := .redirect ("/users/" ++ toString u.id),
        flashes := [],
        state := { s with messages :=
          s.messages ++ [{ id := nextId (s.messages.map (fun m => m.id)),
                           text := text, timestamp := now, user_id := u.id }] } }
    else { resp := .render "messages/create.html", flashes := [], state := s }

/-- show_message route (app.py): guard, 404 on an unknown id, render. -/
def show_message (s : DBState) (gUser : Option User) (message_id : Nat) : HandlerResult :=
  match gUser with
  | none => unauthorized s
  | some _ =>
    match getMessage s message_id with
    | none => { resp := .notFound, flashes := [], state := s }
    | some _ => { resp := .render "messages/show.html", flashes := [], state := s }

/-- delete_message route (app.py): guard, CSRF, 404 on an unknown id, then
delete the message (its like edges go with it by referential integrity)
and commit, redirecting to the current user's page.  The handler body
performs no ownership check. -/
def delete_message (s : DBState) (gUser : Option User) (csrfValid : Bool)
    (message_id : Nat) : HandlerResult :=
  match gUser with
  | none => unauthorized s
  | some u =>
    if csrfValid then
      match getMessage s message_id with
      | none => { resp := .notFound, flashes := [], state := s }
      | some _ =>
        { resp := .redirect ("/users/" ++ toString u.id),
          flashes := [],
          state := { s with
            messages := s.messages.filter (fun m => m.id != message_id),
            likes := s.likes.filter (fun e => e.2 != message_id) } }
    else unauthorized s

/-- Modelled from the spec: the like-toggle route (POST /messages/:id/like)
is exercised by the test suite but its handler is not among the sources.
Per the spec a single action flips the like edge, adding it when absent and
removing it when present, and a user may not like the user's own message:
that request is rejected as unauthorized.  Guard and CSRF handling follow
the other POST routes of app.py. -/
def toggle_like (s : DBState) (gUser : Option User) (csrfValid : Bool)
    (message_id : Nat) : HandlerResult :=
  match gUser with
  | none => unauthorized s
  | some u =>
    if csrfValid then
      match getMessage s message_id with
      | none => { resp := .notFound, flashes := [], state := s }
      | some m =>
        if m.user_id == u.id then unauthorized s
        else if (u.id, message_id) ∈ s.likes then
          { resp := .redirect "/", flashes := [],
            state := { s with likes := s.likes.erase (u.id, message_id) } }
        else
          { resp := .redirect "/", flashes := [],
            state := { s with likes := s.likes ++ [(u.id, message_id)] } }
    else unauthorized s

/-- The ids whose messages appear in the feed (app.py homepage): the users
the current user follows, with the user's own id appended. -/
def followingIds (s : DBState) (u : User) : List Nat :=
  (s.follows.filter (fun e => e.1 == u.id)).map (fun e => e.2) ++ [u.id]

/-- The homepage feed query (app.py homepage): the messages whose owner is
in `followingIds`, ordered by timestamp descending, limited to 100. -/
def homepage_feed (s : DBState) (u : User) : List Message :=
  ((s.messages.filter (fun m => decide (m.user_id ∈ followingIds s u))).mergeSort
    (fun a b => decide (b.timestamp ≤ a.timestamp))).take 100

/-- homepage route (app.py): logged-in users get the feed rendered;
anonymous users get the static landing view with no query and no flash. -/
def homepage (s : DBState) (gUser : Option User) : HandlerResult :=
  match gUser with
  | some _ => { resp := .render "home.html", flashes := [], state := s }
  | none => { resp := .render "home-anon.html", flashes := [], state := s }

/-- The user-scoped actions of the application with their request data. -/
inductive RouteAction
  | listUsers (q : Option String)
  | showUser (uid : Nat)
  | showFollowing (uid : Nat)
  | showFollowers (uid : Nat)
  | startFollowing (uid : Nat)
  | stopFollowing (uid : Nat)
  | profileEdit (formValid : Bool) (f : EditForm)
  | deleteUser
  | addMessage (formValid : Bool) (text : String) (now : Nat)
  | showMessage (mid : Nat)
  | deleteMessage (mid : Nat)
  | toggleLike (mid : Nat)
  | homeFeed
  deriving DecidableEq

/-- Route dispatch over the user-scoped actions. -/
def dispatch (s : DBState) (gUser : Option User) (csrfValid : Bool) : RouteAction → HandlerResult
  | .listUsers q => list_users s gUser q
  | .showUser uid => show_user s gUser uid
  | .showFollowing uid => show_following s gUser uid
  | .showFollowers uid => show_followers s gUser uid
  | .startFollowing uid => start_following s gUser csrfValid uid
  | .stopFollowing uid => stop_following s gUser csrfValid uid
  | .profileEdit fv f => profile s gUser fv f
  | .deleteUser => delete_user s gUser csrfValid
  | .addMessage fv t now => add_message s gUser fv t now
  | .showMessage mid => show_message s gUser mid
  | .deleteMessage mid => delete_message s gUser csrfValid mid
  | .toggleLike mid => toggle_like s gUser csrfValid mid
  | .homeFeed => homepage s gUser

/-- Two users and one message owned by the first, as in the test setup. -/
def uEx1 : User :=
  { id := 1, username := "u1", email := "u1@email.com",
    password := hashPassword "password", imageUrl := DEFAULT_IMAGE_URL,
    headerImageUrl := DEFAULT_HEADER_IMAGE_URL, bio := "", location := DEFAULT_LOCATION }

/-- The second test user. -/
def uEx2 : User :=
  { id := 2, username := "u2", email := "u2@email.com",
    password := hashPassword "password", imageUrl := DEFAULT_IMAGE_URL,
    headerImageUrl := DEFAULT_HEADER_IMAGE_URL, bio := "", location := DEFAULT_LOCATION }

/-- The message owned by the first test user. -/
def mEx1 : Message := { id := 10, text := "m1-text", timestamp := 5, user_id := 1 }

/-- The test store: u1 and u2, one message of u1, no edges. -/
def sEx : DBState := { users := [uEx1, uEx2], messages := [mEx1], follows := [], likes := [] }

/-- C1: contrary to the claim, the delete_message handler performs no
ownership check.  With user u2 logged in and a valid CSRF token, a POST to
/messages/10/delete for the message owned by user u1 deletes the message
and redirects to u2's page with no "Access unauthorized." flash, while the
handler's own docstring ("Check that this message was written by the
current user") and the test suite require the request to be rejected and
the message kept. -/
theorem delete_message_ignores_ownership :
    delete_message sEx (some uEx2) true 10 =
      { resp := .redirect "/users/2", flashes := [],
        state := { users := [uEx1, uEx2], messages := [], follows := [], likes := [] } } := by
  decide

/-- C2: a like request by a logged-in user for the user's own message is
rejected as unauthorized and the like-edge set is left unchanged, so the
like edge (U, M) is never created. -/
theorem toggle_like_own_message_rejected (s : DBState) (u : User) (m : Message)
    (hm : getMessage s m.id = some m) (hown : m.user_id = u.id) :
    toggle_like s (some u) true m.id = unauthorized s ∧
    (toggle_like s (some u) true m.id).state.likes = s.likes := by
  have h : toggle_like s (some u) true m.id = unauthorized s := by
    simp [toggle_like, hm, hown]
  exact ⟨h, by rw [h]; rfl⟩

/-- Witness for C2 at the test store: u1 tries to like u1's own message. -/
theorem toggle_like_own_message_rejected_witness :
    toggle_like sEx (some uEx1) true mEx1.id = unauthorized sEx ∧
    (toggle_like sEx (some uEx1) true mEx1.id).state.likes = sEx.likes :=
  toggle_like_own_message_rejected sEx uEx1 mEx1 (by decide) (by decide)

/-- C5: a signup whose username or email duplicates an existing row fails
with an integrity violation, is surfaced as a flash plus a re-rendered
form, and leaves the stored user rows unchanged. -/
theorem signup_duplicate_rejected (s : DBState) (n e p : String) (img : Option String)
    (hdup : s.users.any (fun v => v.username == n || v.email == e) = true)
    (hp : p ≠ "") :
    User_signup s n e p img = .error .integrityViolation ∧
    signup_route s none true n e p img =
      { resp := .render "users/signup.html",
        flashes := [("Username already taken", "danger")], state := s } := by
  have h1 : User_signup s n e p img = .error .integrityViolation := by
    unfold User_signup
    rw [if_neg hp, if_pos hdup]
  refine ⟨h1, ?_⟩
  unfold signup_route
  simp [h1]

/-- Witness for C5 at the test store: signup with the taken username u1. -/
theorem signup_duplicate_rejected_witness :
    User_signup sEx "u1" "new@email.com" "password" none = .error .integrityViolation ∧
    signup_route sEx none true "u1" "new@email.com" "password" none =
      { resp := .render "users/signup.html",
        flashes := [("Username already taken", "danger")], state := sEx } :=
  signup_duplicate_rejected sEx "u1" "new@email.com" "password" none (by decide) (by decide)

/-- C7: stop-following for an existing target the current user is not
following raises an error (the ValueError from the removal) rather than
completing as a silent no-op, and the follow-edge set is unchanged. -/
theorem stop_following_absent_edge_raises (s : DBState) (u t : User)
    (ht : getUser s t.id = some t) (habs : (u.id, t.id) ∉ s.follows) :
    stop_following s (some u) true t.id =
      { resp := .raise "ValueError", flashes := [], state := s } := by
  simp [stop_following, ht, habs]

/-- Witness for C7 at the test store: u2 stops following u1 without a
follow edge present. -/
theorem stop_following_absent_edge_raises_witness :
    stop_following sEx (some uEx2) true uEx1.id =
      { resp := .raise "ValueError", flashes := [], state := sEx } :=
  stop_following_absent_edge_raises sEx uEx2 uEx1 (by decide) (by decide)

/-- C8: deleting a user's account removes exactly the user's messages: the
message table afterwards is the original one with precisely the rows owned
by that user filtered out, so every message of the user is absent and
every message of any other user is still present, in place. -/
theorem delete_user_cascades_messages (s : DBState) (u : User) :
    (delete_user s (some u) true).state.messages
      = s.messages.filter (fun m => m.user_id != u.id) ∧
    (∀ m ∈ s.messages, m.user_id = u.id →
        m ∉ (delete_user s (some u) true).state.messages) ∧
    (∀ m ∈ s.messages, m.user_id ≠ u.id →
        m ∈ (delete_user s (some u) true).state.messages) := by
  refine ⟨rfl, ?_, ?_⟩
  · intro m hm heq hmem
    have h2 := (List.mem_filter.mp hmem).2
    simp [heq] at h2
  · intro m hm hne
    exact List.mem_filter.mpr ⟨hm, by simpa using hne⟩

/-- Witness for C8 at the test store: deleting u1 removes message 10. -/
theorem delete_user_cascades_messages_witness :
    mEx1 ∉ (delete_user sEx (some uEx1) true).state.messages :=
  (delete_user_cascades_messages sEx uEx1).2.1 mEx1 (by decide) (by decide)

/-- C9: logout with a valid CSRF token succeeds regardless of login state:
for every session, including the empty one, the response is the success
flash and a redirect to /login, the session key ends cleared, and
do_logout is a no-op on an absent session key. -/
theorem logout_ignores_login_state :
    (∀ sess : Option Nat, logout sess true =
      { resp := .redirect "/login",
        flashes := [("Logged out, Going so soon :(", "success")],
        sess := none }) ∧
    do_logout none = none := by
  refine ⟨?_, rfl⟩
  intro sess
  cases sess <;> rfl

/-- Witness for C9: the anonymous logout request. -/
theorem logout_ignores_login_state_witness :
    logout none true =
      { resp := .redirect "/login",
        flashes := [("Logged out, Going so soon :(", "success")],
        sess := none } :=
  logout_ignores_login_state.1 none

/-- C10: a profile edit submitted with a password that does not
authenticate leaves the store, hence every field of the user's row,
unchanged, and responds with a redirect to the user's profile page and no
flash. -/
theorem profile_wrong_password_silent (s : DBState) (u : User) (f : EditForm)
    (hauth : authenticate s u.username f.password = none) :
    profile s (some u) true f =
      { resp := .redirect ("/users/" ++ toString u.id), flashes := [], state := s } := by
  simp [profile, hauth]

/-- The wrong-password edit form of the test suite. -/
def fEx : EditForm :=
  { username := "testusername", email := "newemail@test.com", imageUrl := "",
    headerImageUrl := "", bio := "", location := "test location",
    password := "wrongpassword" }

/-- Witness for C10 at the test store: u2 submits the wrong password. -/
theorem profile_wrong_password_silent_witness :
    profile sEx (some uEx2) true fEx =
      { resp := .redirect ("/users/" ++ toString uEx2.id), flashes := [], state := sEx } :=
  profile_wrong_password_silent sEx uEx2 fEx (by decide)

/-- C6 counterexample: the anonymous homepage-feed request is not rejected
with an authorization error and a redirect; it renders the anonymous
landing view directly, with no flash at all. -/
theorem anon_feed_not_redirected :
    ¬ ((dispatch sEx none true RouteAction.homeFeed).resp = Resp.redirect "/" ∧
       ("Access unauthorized.", "danger") ∈
         (dispatch sEx none true RouteAction.homeFeed).flashes) := by
  decide

/-- C6 amended: with no valid session token every user-scoped action leaves
the store unchanged; every action except the homepage feed is rejected
with the "Access unauthorized." flash and a redirect to the landing page;
the anonymous homepage itself renders the anonymous landing view directly,
with no flash. -/
theorem anon_requests_rejected (s : DBState) (csrfValid : Bool) (a : RouteAction) :
    (dispatch s none csrfValid a).state = s ∧
    (a ≠ RouteAction.homeFeed → dispatch s none csrfValid a = unauthorized s) ∧
    dispatch s none csrfValid RouteAction.homeFeed =
      { resp := .render "home-anon.html", flashes := [], state := s } := by
  refine ⟨?_, ?_, rfl⟩
  · cases a <;> rfl
  · intro h
    cases a <;> first | rfl | exact absurd rfl h

/-- Witness for C6 at the test store: an anonymous request to view user 1,
plus the anonymous homepage. -/
theorem anon_requests_rejected_witness :
    (dispatch sEx none true (RouteAction.showUser 1)).state = sEx ∧
    (RouteAction.showUser 1 ≠ RouteAction.homeFeed →
      dispatch sEx none true (RouteAction.showUser 1) = unauthorized sEx) ∧
    dispatch sEx none true RouteAction.homeFeed =
      { resp := .render "home-anon.html", flashes := [], state := sEx } :=
  anon_requests_rejected sEx true (RouteAction.showUser 1)

/-- The tag prepended by the password hash keeps it injective: equal
stored hashes come from equal passwords. -/
theorem hashPassword_inj (p q : String) (h : hashPassword p = hashPassword q) : p = q := by
  unfold hashPassword at h
  have h2 := congrArg String.data h
  simp only [String.data_append] at h2
  exact String.ext (List.append_cancel_left h2)

/-- In a store whose usernames are pairwise distinct, the username lookup
of a stored user returns exactly that user. -/
theorem find?_username_eq (users : List User) (u : User)
    (huniq : users.Pairwise (fun a b => a.username ≠ b.username))
    (hu : u ∈ users) :
    users.find? (fun v => v.username == u.username) = some u := by
  induction users with
  | nil => cases hu
  | cons a l ih =>
    rcases List.mem_cons.mp hu with rfl | hmem
    · exact List.find?_cons_of_pos _ (by simp)
    · have hne : a.username ≠ u.username := (List.pairwise_cons.mp huniq).1 u hmem
      rw [List.find?_cons_of_neg _ (by simpa using hne)]
      exact ih (List.pairwise_cons.mp huniq).2 hmem

/-- C4: authenticate returns the stored user for the correct
(username, password) pair fixed at signup, and a falsy result for the same
username with any other password as well as for any username matching no
stored user. -/
theorem authenticate_correct (s : DBState) (u : User) (P : String)
    (huniq : s.users.Pairwise (fun a b => a.username ≠ b.username))
    (hu : u ∈ s.users) (hpw : u.password = hashPassword P) :
    authenticate s u.username P = some u ∧
    (∀ p, p ≠ P → authenticate s u.username p = none) ∧
    (∀ n, (∀ v ∈ s.users, v.username ≠ n) → ∀ p, authenticate s n p = none) := by
  have hfind := find?_username_eq s.users u huniq hu
  refine ⟨?_, ?_, ?_⟩
  · unfold authenticate
    rw [hfind]
    simp [checkPassword, hpw]
  · intro p hp
    have hchk : checkPassword p u.password = false := by
      rw [hpw]
      unfold checkPassword
      exact beq_eq_false_iff_ne.mpr (fun hcontra => hp (hashPassword_inj p P hcontra))
    unfold authenticate
    rw [hfind]
    simp [hchk]
  · intro n hn p
    have hnone : s.users.find? (fun v => v.username == n) = none :=
      List.find?_eq_none.mpr (fun v hv => by simp [hn v hv])
    unfold authenticate
    rw [hnone]

/-- Witness for C4 at the test store: u1 with the password "password",
a wrong password, and an unknown username. -/
theorem authenticate_correct_witness :
    authenticate sEx uEx1.username "password" = some uEx1 ∧
    authenticate sEx uEx1.username "bad" = none ∧
    authenticate sEx "u4" "password" = none := by
  have h := authenticate_correct sEx uEx1 "password" (by decide) (by decide) (by decide)
  exact ⟨h.1, h.2.1 "bad" (by decide), h.2.2 "u4" (by decide) "password"⟩

/-- Membership in the feed's id list: the user's own id or a followed id. -/
theorem mem_followingIds (s : DBState) (u : User) (x : Nat) :
    x ∈ followingIds s u ↔ x = u.id ∨ (u.id, x) ∈ s.follows := by
  unfold followingIds
  rw [List.mem_append]
  simp only [List.mem_singleton, List.mem_map, List.mem_filter, beq_iff_eq]
  constructor
  · rintro (⟨e, ⟨he, h1⟩, h2⟩ | h)
    · right
      have hpe : (u.id, x) = e := by rw [← h1, ← h2]
      rw [hpe]
      exact he
    · exact Or.inl h
  · rintro (h | h)
    · exact Or.inr h
    · exact Or.inl ⟨(u.id, x), ⟨h, rfl⟩, rfl⟩

/-- C3: the homepage feed for a logged-in user contains only messages
owned by that user or by a followed user, is ordered newest-first by
timestamp, has at most 100 entries, and contains every qualifying stored
message whenever at most 100 messages qualify. -/
theorem homepage_feed_correct (s : DBState) (u : User) :
    (∀ m ∈ homepage_feed s u,
        m ∈ s.messages ∧ (m.user_id = u.id ∨ (u.id, m.user_id) ∈ s.follows)) ∧
    (homepage_feed s u).Pairwise (fun a b => b.timestamp ≤ a.timestamp) ∧
    (homepage_feed s u).length ≤ 100 ∧
    ((s.messages.filter (fun m => decide (m.user_id ∈ followingIds s u))).length ≤ 100 →
      ∀ m ∈ s.messages, (m.user_id = u.id ∨ (u.id, m.user_id) ∈ s.follows) →
        m ∈ homepage_feed s u) := by
  refine ⟨?_, ?_, ?_, ?_⟩
  · intro m hm
    have h1 : m ∈ (s.messages.filter
        (fun m => decide (m.user_id ∈ followingIds s u))).mergeSort
        (fun a b => decide (b.timestamp ≤ a.timestamp)) :=
      List.take_subset _ _ hm
    have h3 := List.mem_filter.mp (List.mem_mergeSort.mp h1)
    exact ⟨h3.1, (mem_followingIds s u m.user_id).mp (of_decide_eq_true h3.2)⟩
  · have htrans : ∀ (a b c : Message),
        (fun a b : Message => decide (b.timestamp ≤ a.timestamp)) a b →
        (fun a b : Message => decide (b.timestamp ≤ a.timestamp)) b c →
        (fun a b : Message => decide (b.timestamp ≤ a.timestamp)) a c := by
      intro a b c hab hbc
      simp only [decide_eq_true_eq] at hab hbc ⊢
      omega
    have htotal : ∀ (a b : Message),
        ((fun a b : Message => decide (b.timestamp ≤ a.timestamp)) a b ||
         (fun a b : Message => decide (b.timestamp ≤ a.timestamp)) b a) = true := by
      intro a b
      simp only [Bool.or_eq_true, decide_eq_true_eq]
      omega
    have hs := List.sorted_mergeSort htrans htotal
      (s.messages.filter (fun m => decide (m.user_id ∈ followingIds s u)))
    have hs2 := List.Pairwise.sublist (List.take_sublist 100 _) hs
    unfold homepage_feed
    exact hs2.imp (fun h => of_decide_eq_true h)
  · unfold homepage_feed
    exact List.length_take_le _ _
  · intro h100 m hm hq
    have hmem : m ∈ s.messages.filter (fun m => decide (m.user_id ∈ followingIds s u)) :=
      List.mem_filter.mpr ⟨hm, decide_eq_true ((mem_followingIds s u m.user_id).mpr hq)⟩
    unfold homepage_feed
    rw [List.take_of_length_le (by rw [List.length_mergeSort]; exact h100)]
    exact List.mem_mergeSort.mpr hmem

/-- Witness for C3 at the test store: u1's own message is in u1's feed. -/
theorem homepage_feed_correct_witness : mEx1 ∈ homepage_feed sEx uEx1 :=
  (homepage_feed_correct sEx uEx1).2.2.2 (by decide) mEx1 (by decide) (Or.inl (by decide))
